import Mathlib

/-!
Verification of the beatinbox Express backend (playlist sharing, push-token
registry and push-notification fan-out) against its design document.

The relational store is embedded as in-memory lists of records, one list per
Prisma model, queried with the same filters the handlers build.  Prisma
`findFirst` returns the first row of the table matching the filter, embedded
here as `List.find?`.  Fields that Prisma generates (`cuid()` primary keys,
`now()` timestamps) are supplied by a counter respectively by explicit
arguments.  The Expo push provider and its token-format validator are external
collaborators and enter as function parameters; each provider submission the
code performs is recorded in a call trace so that theorems can speak about
which batches were actually submitted.
-/

namespace Beatinbox

/-- A row of the `User` model (fields used by the handlers under study). -/
structure UserRec where
  id : String
  name : Option String
  image : Option String
deriving DecidableEq

/-- A row of the `Song` model. -/
structure SongRec where
  videoId : String
  title : String
  artist : String
  thumbnail : String
deriving DecidableEq

/-- A row of the `Playlist` model. -/
structure PlaylistRec where
  id : String
  name : String
  userId : String
  createdAt : Nat
  updatedAt : Nat
deriving DecidableEq

/-- A row of the `PlaylistSong` join model. -/
structure PlaylistSongRec where
  playlistId : String
  songId : String
deriving DecidableEq

/-- A row of the `Message` model.  `playlistId` is nullable in the schema. -/
structure MessageRec where
  id : String
  content : String
  fromId : String
  toId : String
  playlistId : Option String
  createdAt : Nat
deriving DecidableEq

/-- A row of the `Follow` model (unique on the pair). -/
structure FollowRec where
  followerId : String
  followingId : String
deriving DecidableEq

/-- A row of the `PushToken` model: `(id, userId, token, platform, createdAt,
updatedAt)`.  The `cuid()` primary key is abstracted to a counter value. -/
structure PushTokenRec where
  id : Nat
  userId : String
  token : String
  platform : String
  createdAt : Nat
  updatedAt : Nat
deriving DecidableEq

/-- The relational store: one list per model, in table order, plus the
generator state for fresh primary keys. -/
structure DB where
  users : List UserRec
  songs : List SongRec
  playlists : List PlaylistRec
  playlistSongs : List PlaylistSongRec
  messages : List MessageRec
  follows : List FollowRec
  pushTokens : List PushTokenRec
  nextId : Nat
deriving DecidableEq

/-- JavaScript string trimming: strip leading and trailing whitespace
(spelled out over the character list so that it evaluates inside the
kernel). -/
def jsTrim (s : String) : String :=
  ⟨((s.data.dropWhile Char.isWhitespace).reverse.dropWhile
      Char.isWhitespace).reverse⟩

/-- JavaScript `x || d` on a nullable string: `null`, `undefined` and the
empty string are all falsy and select the default. -/
def jsOr (x : Option String) (d : String) : String :=
  match x with
  | some s => if s = "" then d else s
  | none => d

/-- Fresh `cuid()`-style identifier for a generated row. -/
def genId (n : Nat) : String := "c" ++ Nat.repr n

/-! ### Playlist access resolution (`getSharedPlaylist`)

The handler first looks for a `Message` with `toId = viewer` and
`playlistId = <requested id>`, then runs

  `playlist.findFirst (where: id = pid, OR: [ userId = viewer, id = message?.playlistId ])`.

When no message was found, the optional chain `message?.playlistId` is
`undefined`, and Prisma strips filter fields whose value is `undefined`; a
filter object left with no fields places no constraint at all, so that `OR`
branch matches every row.  The embedding reproduces exactly this documented
Prisma behaviour: a `none` comparand makes the branch `true`. -/

/-- Songs of a playlist, through the `PlaylistSong` join (the shape the
handler serialises: videoId, title, artist, thumbnail). -/
def playlistSongsOf (db : DB) (pid : String) : List SongRec :=
  (db.playlistSongs.filter fun ps => ps.playlistId == pid).filterMap
    fun ps => db.songs.find? fun s => s.videoId == ps.songId

/-- Result of `GET /:playlistId` — either the 404 body or the 200 payload
(playlist core fields, owner display fields, song list). -/
inductive PlaylistViewResult
  | notFound (error : String)
  | ok (playlist : PlaylistRec) (userName : String) (userImage : Option String)
      (songs : List SongRec)
deriving DecidableEq

/-- The `getSharedPlaylist` handler.  `viewerId` is the authenticated user,
`pid` the `:playlistId` route parameter. -/
def getSharedPlaylist (db : DB) (viewerId pid : String) : PlaylistViewResult :=
  let message := db.messages.find? fun m =>
    m.toId == viewerId && m.playlistId == some pid
  -- message?.playlistId : undefined when no message was found
  let sharedPid : Option String := message.bind fun m => m.playlistId
  let cond : PlaylistRec → Bool := fun p =>
    p.id == pid &&
      (p.userId == viewerId ||
        (match sharedPid with
         | some q => p.id == q
         | none => true))  -- Prisma drops the undefined field: no constraint
  match db.playlists.find? cond with
  | none => .notFound "Playlist not found or unauthorized"
  | some p =>
    let owner := db.users.find? fun u => u.id == p.userId
    .ok p (jsOr (owner.bind fun u => u.name) "")
      (owner.bind fun u => u.image) (playlistSongsOf db p.id)

/-! ### The playlist router (`src/index.ts`, registration order) -/

/-- One segment of an Express route pattern: a literal or a `:param`. -/
inductive Seg
  | lit (s : String)
  | par (name : String)
deriving DecidableEq

/-- Handlers registered on the playlist router, in source order. -/
inductive PlaylistHandler
  | createPlaylist
  | getSharedPlaylist
  | updatePlaylist
  | deletePlaylist
  | addSongToPlaylist
  | removeSongFromPlaylist
  | checkSongInPlaylist
  | getSharedPlaylists
  | likeSong
  | unlikeSong
  | checkSongLike
  | getLikedSongs
deriving DecidableEq

/-- A registered route: HTTP method, path pattern, handler. -/
structure Route where
  method : String
  pattern : List Seg
  handler : PlaylistHandler
deriving DecidableEq

/-- Does one pattern segment accept one path segment? -/
def segAccepts : Seg → String → Bool
  | .lit s, x => s == x
  | .par _, _ => true

/-- Express path matching: same number of segments, literals equal,
parameters accept anything. -/
def patAccepts : List Seg → List String → Bool
  | [], [] => true
  | s :: ps, x :: xs => segAccepts s x && patAccepts ps xs
  | _, _ => false

/-- Parameter bindings extracted from a matched path. -/
def patBindings : List Seg → List String → List (String × String)
  | .par n :: ps, x :: xs => (n, x) :: patBindings ps xs
  | .lit _ :: ps, _ :: xs => patBindings ps xs
  | _, _ => []

/-- The playlist router exactly as registered in `src/index.ts`. -/
def playlistRouter : List Route :=
  [ ⟨"POST", [], .createPlaylist⟩,
    ⟨"GET", [.par "playlistId"], .getSharedPlaylist⟩,
    ⟨"PATCH", [.par "playlistId"], .updatePlaylist⟩,
    ⟨"DELETE", [.par "playlistId"], .deletePlaylist⟩,
    ⟨"POST", [.lit "add-song"], .addSongToPlaylist⟩,
    ⟨"DELETE", [.par "playlistId", .lit "songs", .par "songId"], .removeSongFromPlaylist⟩,
    ⟨"GET", [.par "playlistId", .lit "songs", .par "songId", .lit "exists"], .checkSongInPlaylist⟩,
    ⟨"GET", [.lit "shared"], .getSharedPlaylists⟩,
    ⟨"POST", [.lit "songs", .par "songId", .lit "like"], .likeSong⟩,
    ⟨"DELETE", [.lit "songs", .par "songId", .lit "like"], .unlikeSong⟩,
    ⟨"GET", [.lit "songs", .par "songId", .lit "like"], .checkSongLike⟩,
    ⟨"GET", [.lit "liked-songs"], .getLikedSongs⟩ ]

/-- Express dispatch: the first registered route whose method and pattern
match the request wins. -/
def dispatch (routes : List Route) (method : String) (path : List String) :
    Option (PlaylistHandler × List (String × String)) :=
  match routes.find? (fun r => r.method == method && patAccepts r.pattern path) with
  | some r => some (r.handler, patBindings r.pattern path)
  | none => none

/-! ### Push notification fan-out (`src/utils/sendNotification.ts`)

`sendPushNotification` builds one Expo message per token that passes
`Expo.isExpoPushToken` (invalid tokens are skipped with a `console.error`),
chunks the messages with `expo.chunkPushNotifications` (at most 100 messages
per provider call) and submits each chunk, collecting the returned tickets;
a chunk whose submission throws is only logged and contributes nothing to
the collected tickets.  The token-format validator and the provider are
external collaborators, passed as parameters; `provider` is indexed by the
position of the call so that distinct submissions may behave differently. -/

/-- A JSON value stored in a notification `data` map (string or null). -/
inductive JVal
  | s (v : String)
  | nullVal
deriving DecidableEq

/-- JavaScript nullable string as a JSON value. -/
def jv (x : Option String) : JVal :=
  match x with
  | some v => .s v
  | none => .nullVal

/-- The `title`/`body`/`data` object handed to `sendPushNotification`. -/
structure Notification where
  title : String
  body : String
  data : List (String × JVal)
deriving DecidableEq

/-- An `ExpoPushMessage` as built by `sendPushNotification`. -/
structure PushMessage where
  «to» : String
  sound : String
  title : String
  body : String
  data : List (String × JVal)
  channelId : String
deriving DecidableEq

/-- A provider ticket (per-message acknowledgment). -/
structure Ticket where
  status : String
  detail : String
deriving DecidableEq

instance : DecidableEq (Except String (List Ticket)) := fun a b =>
  match a, b with
  | .ok x, .ok y => decidable_of_iff (x = y) (by simp)
  | .error x, .error y => decidable_of_iff (x = y) (by simp)
  | .ok _, .error _ => isFalse (fun h => Except.noConfusion h)
  | .error _, .ok _ => isFalse (fun h => Except.noConfusion h)

/-- The provider collaborator: one submission per chunk, indexed by call
position; it either returns tickets or throws. -/
abbrev Provider := Nat → List PushMessage → Except String (List Ticket)

/-- Expo hard batch-size limit (`chunkPushNotifications`). -/
def chunkLimit : Nat := 100

/-- Structural worker for `chunksOf`: the fuel argument only bounds the
recursion depth (one chunk consumes at least one element, so the length of
the input list is always enough fuel). -/
def chunksOfGo (n : Nat) : Nat → List α → List (List α)
  | _, [] => []
  | 0, l => [l]
  | fuel + 1, x :: xs => (x :: xs.take (n - 1)) :: chunksOfGo n fuel (xs.drop (n - 1))

/-- Split a list into consecutive chunks of at most `n` elements
(`expo.chunkPushNotifications`; every message here has one recipient). -/
def chunksOf (n : Nat) (l : List α) : List (List α) :=
  chunksOfGo n l.length l

/-- Outcome of one fan-out call: the tickets the function returns, and the
trace of chunks actually submitted to the provider, in submission order. -/
structure SendResult where
  tickets : List Ticket
  calls : List (List PushMessage)
deriving DecidableEq

/-- The chunk-submission loop: every chunk is submitted; a throwing
submission is caught, logged and skipped, and the loop continues. -/
def runChunks (provider : Provider) : List (List PushMessage) → Nat → SendResult
  | [], _ => ⟨[], []⟩
  | c :: cs, i =>
    let rest := runChunks provider cs (i + 1)
    match provider i c with
    | .ok ts => ⟨ts ++ rest.tickets, c :: rest.calls⟩
    | .error _ => ⟨rest.tickets, c :: rest.calls⟩

/-- Message construction: one `ExpoPushMessage` per token passing the
format check; failing tokens are dropped (logged only). -/
def toPushMessages (isValidToken : String → Bool) (tokens : List String)
    (n : Notification) : List PushMessage :=
  tokens.filterMap fun t =>
    if isValidToken t then
      some ⟨t, "default", n.title, n.body, n.data, "default"⟩
    else
      none

/-- `sendPushNotification(tokens, notification)`. -/
def sendPushNotification (isValidToken : String → Bool) (provider : Provider)
    (tokens : List String) (n : Notification) : SendResult :=
  runChunks provider (chunksOf chunkLimit (toPushMessages isValidToken tokens n)) 0

/-- `sendFollowNotification`: loads the target user push tokens; with zero
tokens it returns early (`undefined`, embedded as `none`) without touching
the provider; otherwise it fans out the composed payload. -/
def sendFollowNotification (db : DB) (followerId followerName : String)
    (followerImage : Option String) (targetUserId : String)
    (isValidToken : String → Bool) (provider : Provider) : Option SendResult :=
  let pushTokens := db.pushTokens.filter fun t => t.userId == targetUserId
  if pushTokens.length = 0 then
    none
  else
    let n : Notification :=
      { title := "New Follower"
        body := followerName ++ " started following you"
        data := [("type", .s "follow"), ("followerId", .s followerId),
                 ("followerName", .s followerName),
                 ("followerImage", jv followerImage)] }
    some (sendPushNotification isValidToken provider (pushTokens.map (·.token)) n)

/-- Outcome of the composing notification helpers: the payload handed to the
fan-out (when one was composed at all) and the fan-out result (when the
provider was reached). -/
structure ComposeResult where
  payload : Option Notification
  sent : Option SendResult
deriving DecidableEq

/-- `sendPlaylistLikeNotification`: suppressed when the liker owns the
playlist; returns early with no payload when the owner has no tokens. -/
def sendPlaylistLikeNotification (db : DB) (likerId likerName : String)
    (likerImage : Option String) (playlistOwnerId playlistId playlistName : String)
    (nowIso : String) (isValidToken : String → Bool) (provider : Provider) :
    ComposeResult :=
  if likerId == playlistOwnerId then
    ⟨none, none⟩
  else
    let pushTokens := db.pushTokens.filter fun t => t.userId == playlistOwnerId
    if pushTokens.length = 0 then
      ⟨none, none⟩
    else
      let n : Notification :=
        { title := "Playlist Liked"
          body := likerName ++ " liked your playlist \"" ++ playlistName ++ "\""
          data := [("type", .s "playlist_like"), ("likerId", .s likerId),
                   ("likerName", .s likerName), ("likerImage", jv likerImage),
                   ("playlistId", .s playlistId),
                   ("playlistName", .s playlistName),
                   ("timestamp", .s nowIso)] }
      ⟨some n, some (sendPushNotification isValidToken provider
        (pushTokens.map (·.token)) n)⟩

/-- Comment truncation: more than 50 characters keeps the first 50 and
appends an ellipsis marker. -/
def truncateComment (c : String) : String :=
  if c.length > 50 then (c.take 50) ++ "..." else c

/-- `sendPlaylistCommentNotification`: suppressed when the commenter owns
the playlist; returns early with no payload when the owner has no tokens. -/
def sendPlaylistCommentNotification (db : DB) (commenterId commenterName : String)
    (commenterImage : Option String) (playlistOwnerId playlistId playlistName : String)
    (commentContent : String) (nowIso : String) (isValidToken : String → Bool)
    (provider : Provider) : ComposeResult :=
  if commenterId == playlistOwnerId then
    ⟨none, none⟩
  else
    let pushTokens := db.pushTokens.filter fun t => t.userId == playlistOwnerId
    if pushTokens.length = 0 then
      ⟨none, none⟩
    else
      let n : Notification :=
        { title := "New Comment"
          body := commenterName ++ " commented on \"" ++ playlistName ++ "\": \""
            ++ truncateComment commentContent ++ "\""
          data := [("type", .s "playlist_comment"), ("commenterId", .s commenterId),
                   ("commenterName", .s commenterName),
                   ("commenterImage", jv commenterImage),
                   ("playlistId", .s playlistId),
                   ("playlistName", .s playlistName),
                   ("commentContent", .s commentContent),
                   ("timestamp", .s nowIso)] }
      ⟨some n, some (sendPushNotification isValidToken provider
        (pushTokens.map (·.token)) n)⟩

/-! ### The standalone notification endpoint (`POST /send`)

The notifications router has a direct send-to-user endpoint.  Unlike the
helper functions above it treats a target with zero registered tokens as a
404 error surfaced to the caller. -/

/-- Response of the `POST /send` notification endpoint. -/
inductive NotifyResponse
  | badRequest (error : String)
  | notFound (error : String)
  | ok (tokensCount : Nat) (tickets : List Ticket)
deriving DecidableEq

/-- The `sendNotification` route handler of the notifications router. -/
def sendNotification (db : DB) (selfId : String) (selfName : Option String)
    (targetUserId title body : String) (data : List (String × JVal))
    (nowIso : String) (isValidToken : String → Bool) (provider : Provider) :
    NotifyResponse :=
  if targetUserId == "" || title == "" || body == "" then
    .badRequest "targetUserId, title, and body are required"
  else
    match db.users.find? (fun u => u.id == targetUserId) with
    | none => .notFound "Target user not found"
    | some _ =>
      let pushTokens := db.pushTokens.filter fun t => t.userId == targetUserId
      if pushTokens.length = 0 then
        .notFound "No push tokens found for target user"
      else
        let n : Notification :=
          { title := title, body := body
            data := data ++ [("senderId", .s selfId), ("senderName", jv selfName),
                             ("timestamp", .s nowIso)] }
        let r := sendPushNotification isValidToken provider
          (pushTokens.map (·.token)) n
        .ok pushTokens.length r.tickets

/-! ### Business actions wrapping a notification step
(`src/routes/mobile/users.ts`)

`followUser` and `sendMessage` perform their primary write, then await the
notification helper inside a dedicated `try/catch` whose handler only logs:
an arbitrary outcome of that await — modelled by an `Except` parameter — is
absorbed and execution continues to the success response. -/

/-- Response of the `followUser` handler. -/
inductive FollowResponse
  | badRequest (error : String)
  | notFound (error : String)
  | ok (message : String)
deriving DecidableEq

/-- The `followUser` handler.  `notifyOutcome` is the outcome of awaiting
`sendFollowNotification`; a unique-constraint violation of the follow pair
(Prisma error P2002) is answered with the already-following success body. -/
def followUser (db : DB) (selfId : String)
    (targetId : String) (notifyOutcome : Except String Unit) :
    DB × FollowResponse :=
  if targetId == "" then
    (db, .badRequest "User ID is required")
  else if targetId == selfId then
    (db, .badRequest "Cannot follow yourself")
  else
    match db.users.find? (fun u => u.id == targetId) with
    | none => (db, .notFound "User not found")
    | some target =>
      if db.follows.any (fun f => f.followerId == selfId && f.followingId == targetId) then
        (db, .ok ("Already following " ++ jsOr target.name "user"))
      else
        let db' := { db with follows := db.follows ++ [⟨selfId, targetId⟩] }
        -- try { await sendFollowNotification(...) } catch { log only }
        match notifyOutcome with
        | .ok _ => (db', .ok ("Successfully followed " ++ jsOr target.name "user"))
        | .error _ => (db', .ok ("Successfully followed " ++ jsOr target.name "user"))

/-- Response of the `sendMessage` handler; the 200 body carries the created
message row. -/
inductive MessageResponse
  | badRequest (error : String)
  | notFound (error : String)
  | ok (message : MessageRec)
deriving DecidableEq

/-- JavaScript truthiness of the optional `playlistId` body field:
`undefined`, `null` and the empty string are falsy. -/
def pidTruthy (pid : Option String) : Bool :=
  match pid with
  | some p => p != ""
  | none => false

/-- The `sendMessage` handler.  `now` is the row timestamp; `notifyOutcome`
is the outcome of awaiting `sendMessageNotification`, absorbed by the inner
`try/catch`. -/
def sendMessage (db : DB) (selfId : String) (toUserId content : String)
    (playlistId : Option String) (now : Nat)
    (notifyOutcome : Except String Unit) : DB × MessageResponse :=
  if toUserId == "" || jsTrim content == "" then
    (db, .badRequest "Invalid message data")
  else
    match db.users.find? (fun u => u.id == toUserId) with
    | none => (db, .notFound "Recipient not found")
    | some _ =>
      if pidTruthy playlistId &&
          (db.playlists.find? fun p =>
            p.id == playlistId.getD "" && p.userId == selfId).isNone then
        (db, .notFound "Playlist not found or unauthorized")
      else
        let msg : MessageRec :=
          { id := genId db.nextId, content := jsTrim content, fromId := selfId,
            toId := toUserId, playlistId := playlistId, createdAt := now }
        let db' := { db with messages := db.messages ++ [msg],
                             nextId := db.nextId + 1 }
        -- try { await sendMessageNotification(...) } catch { log only }
        match notifyOutcome with
        | .ok _ => (db', .ok msg)
        | .error _ => (db', .ok msg)

/-! ### Push-token registry (`registerPushToken`) -/

/-- Response of the `registerPushToken` handler.  The success body is
`success: true` with a fixed message; it carries no record data. -/
inductive RegisterResponse
  | badRequest (error : String)
  | ok (message : String)
deriving DecidableEq

/-- Full outcome of one `registerPushToken` call: the updated store, the
HTTP response, and the id of the row that was updated or created (the
handler only logs this id; it is not part of the response). -/
structure RegResult where
  db : DB
  response : RegisterResponse
  recordId : Option Nat
deriving DecidableEq

/-- The `registerPushToken` handler: rejects a missing token or platform and
a platform outside `ios`/`android`; updates platform and timestamp in place
when a row with the same `(userId, token)` exists, otherwise inserts a new
row with a fresh id. -/
def registerPushToken (db : DB) (userId token platform : String) (now : Nat) :
    RegResult :=
  if token == "" || platform == "" then
    ⟨db, .badRequest "Token and platform are required", none⟩
  else if !(platform == "ios" || platform == "android") then
    ⟨db, .badRequest "Platform must be either \"ios\" or \"android\"", none⟩
  else
    match db.pushTokens.find? (fun r => r.userId == userId && r.token == token) with
    | some existing =>
      let recs := db.pushTokens.map fun r =>
        if r.id == existing.id then { r with platform := platform, updatedAt := now }
        else r
      ⟨{ db with pushTokens := recs }, .ok "Push token registered successfully",
        some existing.id⟩
    | none =>
      let newRec : PushTokenRec :=
        ⟨db.nextId, userId, token, platform, now, now⟩
      ⟨{ db with pushTokens := db.pushTokens ++ [newRec], nextId := db.nextId + 1 },
        .ok "Push token registered successfully", some newRec.id⟩

/-- One registration request (arguments of `registerPushToken`). -/
structure RegOp where
  userId : String
  token : String
  platform : String
  now : Nat
deriving DecidableEq

/-- The store after one registration request. -/
def applyReg (db : DB) (op : RegOp) : DB :=
  (registerPushToken db op.userId op.token op.platform op.now).db

/-- The store after a sequence of registration requests. -/
def applyRegs (db : DB) (ops : List RegOp) : DB := ops.foldl applyReg db

/-- A registration request that passes the handler validation. -/
def validOp (op : RegOp) : Bool :=
  !(op.token == "" || op.platform == "") &&
    (op.platform == "ios" || op.platform == "android")

/-- The platform of the most recent valid registration of `(u, t)` in a
request sequence, if any. -/
def lastPlatform (ops : List RegOp) (u t : String) : Option String :=
  ((ops.filter fun op => validOp op && op.userId == u && op.token == t).getLast?).map
    (·.platform)

/-- The stored row for a `(userId, token)` pair. -/
def lookupPair (db : DB) (u t : String) : Option PushTokenRec :=
  db.pushTokens.find? fun r => r.userId == u && r.token == t

/-- No two stored push-token rows share the same `(userId, token)` pair. -/
def pairUnique (db : DB) : Prop :=
  db.pushTokens.Pairwise fun a b => ¬(a.userId = b.userId ∧ a.token = b.token)

/-- Store well-formedness: primary keys are below the generator counter and
pairwise distinct, and the `(userId, token)` uniqueness invariant holds. -/
def StoreInv (db : DB) : Prop :=
  (∀ r ∈ db.pushTokens, r.id < db.nextId) ∧
    db.pushTokens.Pairwise (fun a b => a.id ≠ b.id) ∧ pairUnique db

/-! ### Listing playlists shared with a user (`getSharedPlaylists`) -/

/-- The serialised playlist of one shared-playlist entry. -/
structure PlaylistView where
  id : String
  name : String
  songs : List SongRec
deriving DecidableEq

/-- One entry of the `GET /shared` response body. -/
structure SharedEntry where
  messageId : String
  messageContent : String
  sharedAt : Nat
  senderId : String
  senderName : Option String
  senderImage : Option String
  playlist : Option PlaylistView
deriving DecidableEq

/-- The messages the handler selects: addressed to the user and carrying a
non-null `playlistId`. -/
def qualifyingMessages (db : DB) (uid : String) : List MessageRec :=
  db.messages.filter fun m => m.toId == uid && m.playlistId != none

/-- Newest-first order on messages (`orderBy createdAt desc`). -/
def newestFirst (a b : MessageRec) : Prop := b.createdAt ≤ a.createdAt

instance : DecidableRel newestFirst := fun a b =>
  inferInstanceAs (Decidable (b.createdAt ≤ a.createdAt))

instance : IsTotal MessageRec newestFirst :=
  ⟨fun a b => Nat.le_total b.createdAt a.createdAt⟩

instance : IsTrans MessageRec newestFirst :=
  ⟨fun _ _ _ h h' => Nat.le_trans h' h⟩

/-- Serialisation of one qualifying message: the sender is resolved through
the required `from` relation (present under foreign-key integrity), the
playlist through the nullable `playlist` relation. -/
def renderEntry (db : DB) (m : MessageRec) : Option SharedEntry :=
  (db.users.find? fun u => u.id == m.fromId).map fun sender =>
    { messageId := m.id, messageContent := m.content, sharedAt := m.createdAt,
      senderId := sender.id, senderName := sender.name,
      senderImage := sender.image,
      playlist := (m.playlistId.bind fun pid =>
          db.playlists.find? fun p => p.id == pid).map fun p =>
        ⟨p.id, p.name, playlistSongsOf db p.id⟩ }

/-- The `getSharedPlaylists` handler body: qualifying messages, newest
first, one serialised entry per message. -/
def getSharedPlaylists (db : DB) (uid : String) : List SharedEntry :=
  (List.insertionSort newestFirst (qualifyingMessages db uid)).filterMap
    (renderEntry db)

/-! ### Concrete fixtures used by counterexamples and witnesses -/

/-- Owner of the C1 fixture playlist. -/
def aliceC1 : UserRec := ⟨"alice", some "Alice", none⟩

/-- The single song of the C1 fixture playlist. -/
def songC1 : SongRec := ⟨"v1", "Song One", "Some Artist", "thumb1"⟩

/-- The C1 fixture playlist, owned by `alice`. -/
def playlistC1 : PlaylistRec := ⟨"p1", "Roadtrip", "alice", 1, 1⟩

/-- C1 fixture store: one playlist owned by `alice`, no messages at all, and
a third user `charlie` who was never sent anything. -/
def dbC1 : DB :=
  ⟨[aliceC1, ⟨"charlie", some "Charlie", none⟩], [songC1], [playlistC1],
    [⟨"p1", "v1"⟩], [], [], [], 10⟩

/-- The empty store. -/
def emptyDB : DB := ⟨[], [], [], [], [], [], [], 0⟩

/-- A token-format validator accepting everything. -/
def ivAll : String → Bool := fun _ => true

/-- A provider that acknowledges every message of a batch. -/
def provEcho : Provider := fun _ msgs => .ok (msgs.map fun m => ⟨"ok", m.«to»⟩)

/-- C2 witness store: two users and a playlist owned by `ann`. -/
def dbC2 : DB :=
  ⟨[⟨"ann", some "Ann", none⟩, ⟨"bob", some "Bob", none⟩], [],
    [⟨"pl1", "Mix", "ann", 0, 0⟩], [], [], [], [], 0⟩

/-- C3 fixture store: the target user exists but has no push tokens. -/
def dbC3 : DB := ⟨[⟨"u2", some "Target", none⟩], [], [], [], [], [], [], 0⟩

/-- C4 fixture validator: exactly one specific token is well-formed. -/
def ivC4 : String → Bool := fun t => t == "ExponentPushToken[good]"

/-- C4 fixture notification. -/
def nC4 : Notification := ⟨"T", "B", []⟩

/-- C5 fixture provider: the first submission throws, later ones return a
single acknowledgment ticket. -/
def provC5 : Provider := fun i _ =>
  if i = 0 then .error "network error" else .ok [⟨"ok", "second"⟩]

/-- C5 fixture token list: 101 well-formed tokens, forcing two provider
batches (100 + 1). -/
def tokensC5 : List String := List.replicate 101 "ExponentPushToken[x]"

/-- C5 fixture notification. -/
def nC5 : Notification := ⟨"T5", "B5", []⟩

/-- Two concrete one-message batches for the C5 witness. -/
def batchA : List PushMessage := [⟨"t1", "default", "T", "B", [], "default"⟩]

/-- Second concrete batch for the C5 witness. -/
def batchB : List PushMessage := [⟨"t2", "default", "T", "B", [], "default"⟩]

/-- C8 witness store: the playlist owner has one registered device. -/
def dbC8tok : DB :=
  ⟨[], [], [], [], [], [], [⟨0, "owner", "ExponentPushToken[z]", "ios", 0, 0⟩], 1⟩

/-- C9 fixture store: empty table, key generator at 5. -/
def dbC9a : DB := ⟨[], [], [], [], [], [], [], 5⟩

/-- C9 fixture store: empty table, key generator at 7. -/
def dbC9b : DB := ⟨[], [], [], [], [], [], [], 7⟩

/-- C6 witness request sequence: the same pair registered twice with
different platforms. -/
def opsC6 : List RegOp := [⟨"u", "tk", "ios", 1⟩, ⟨"u", "tk", "android", 2⟩]

/-- C7 witness store: the same playlist shared with the same recipient in
two different messages. -/
def dbC7 : DB :=
  ⟨[⟨"s", some "Sender", none⟩, ⟨"r", some "Recip", none⟩],
    [⟨"v1", "Tune", "Artist", "th"⟩],
    [⟨"p1", "Mix", "s", 0, 0⟩],
    [⟨"p1", "v1"⟩],
    [⟨"m1", "first share", "s", "r", some "p1", 10⟩,
     ⟨"m2", "second share", "s", "r", some "p1", 20⟩],
    [], [], 0⟩

/-! ### Theorems -/

/-- A one-literal pattern accepts exactly the one-segment path with that
literal. -/
theorem patAccepts_single_lit (s : String) (path : List String) :
    patAccepts [.lit s] path = true ↔ path = [s] := by
  cases path with
  | nil => simp [patAccepts]
  | cons x xs =>
    cases xs with
    | nil =>
      constructor
      · intro h
        have h2 : (s == x) = true := by
          have hred : patAccepts [Seg.lit s] [x] = (s == x && patAccepts [] []) := rfl
          rw [hred, Bool.and_eq_true] at h
          exact h.1
        rw [beq_iff_eq] at h2
        rw [h2]
      · intro h
        rw [h]
        show (s == s && true) = true
        simp
    | cons y ys => simp [patAccepts, segAccepts]

/-- A one-parameter pattern accepts every one-segment path. -/
theorem patAccepts_single_par (n x : String) :
    patAccepts [.par n] [x] = true := rfl

/-- C1: the spec requires `canView` to hold exactly for the owner or a
message recipient, with every other viewer receiving the not-found
response.  The handler instead grants access to every existing playlist:
with no sharing message, the filter branch `id = message?.playlistId`
carries `undefined` and Prisma drops it, leaving an OR branch that matches
every row.  Here the unrelated viewer `charlie` — not the owner, with no
message ever sent to them — receives the full playlist instead of the 404
response. -/
theorem c1_unrelated_viewer_gets_playlist :
    getSharedPlaylist dbC1 "charlie" "p1" =
      .ok playlistC1 "Alice" none [songC1] ∧
    playlistC1.userId ≠ "charlie" ∧ dbC1.messages = [] := by
  refine ⟨by decide, by decide, rfl⟩

/-- C10: on the playlist router, `GET /shared` is dispatched to the
single-playlist handler with the path parameter `playlistId` bound to the
literal string `shared`, because the parameterised route `/:playlistId` is
registered first; no request whatsoever reaches `getSharedPlaylists`
through this router. -/
theorem c10_shared_route_shadowed :
    dispatch playlistRouter "GET" ["shared"] =
      some (PlaylistHandler.getSharedPlaylist, [("playlistId", "shared")]) ∧
    ∀ method path,
      (dispatch playlistRouter method path).map Prod.fst ≠
        some PlaylistHandler.getSharedPlaylists := by
  refine ⟨by decide, ?_⟩
  intro method path
  unfold dispatch
  cases hf : List.find?
      (fun r => r.method == method && patAccepts r.pattern path) playlistRouter with
  | none => exact fun h => Option.noConfusion h
  | some r =>
    intro hfull
    have hfull2 : some r.handler = some PlaylistHandler.getSharedPlaylists := hfull
    have hh : r.handler = PlaylistHandler.getSharedPlaylists := by
      injection hfull2
    have hmem : r ∈ playlistRouter := List.mem_of_find?_eq_some hf
    have hpred := List.find?_some hf
    -- only one registered route carries the shared-playlists handler
    have honly : ∀ x ∈ playlistRouter,
        x.handler = PlaylistHandler.getSharedPlaylists →
        x = ⟨"GET", [.lit "shared"], .getSharedPlaylists⟩ := by decide
    have hr := honly r hmem hh
    rw [hr] at hpred
    rw [Bool.and_eq_true] at hpred
    obtain ⟨hm, hp⟩ := hpred
    rw [beq_iff_eq] at hm
    rw [patAccepts_single_lit] at hp
    subst hm
    subst hp
    -- with method GET and path [shared] the first match is the
    -- parameterised single-playlist route, not the shared route
    have hfirst : List.find?
        (fun r => r.method == "GET" && patAccepts r.pattern ["shared"]) playlistRouter =
        some ⟨"GET", [.par "playlistId"], .getSharedPlaylist⟩ := by decide
    rw [hfirst] at hf
    rw [Option.some.injEq] at hf
    rw [← hf] at hr
    exact Route.noConfusion hr (fun _ hpat _ => by simp at hpat)

/-- C2: once the primary write has succeeded (follow row created, message
row created), the handler answers with the success response for every
possible outcome of the notification step — the `try/catch` around the
notification await absorbs any exception, the write is kept, and the
response does not depend on the delivery outcome. -/
theorem c2_primary_write_independent_of_notification :
    (∀ (db : DB) (selfId targetId : String) (o : Except String Unit)
        (target : UserRec),
      targetId ≠ "" → targetId ≠ selfId →
      db.users.find? (fun u => u.id == targetId) = some target →
      db.follows.any (fun f => f.followerId == selfId && f.followingId == targetId)
        = false →
      followUser db selfId targetId o =
        ({ db with follows := db.follows ++ [⟨selfId, targetId⟩] },
          .ok ("Successfully followed " ++ jsOr target.name "user"))) ∧
    (∀ (db : DB) (selfId toUserId content : String) (pid : Option String)
        (now : Nat) (o : Except String Unit) (u : UserRec),
      toUserId ≠ "" → jsTrim content ≠ "" →
      db.users.find? (fun v => v.id == toUserId) = some u →
      (pidTruthy pid &&
        (db.playlists.find? fun p =>
          p.id == pid.getD "" && p.userId == selfId).isNone) = false →
      sendMessage db selfId toUserId content pid now o =
        ({ db with
            messages := db.messages ++
              [⟨genId db.nextId, jsTrim content, selfId, toUserId, pid, now⟩],
            nextId := db.nextId + 1 },
          .ok ⟨genId db.nextId, jsTrim content, selfId, toUserId, pid, now⟩)) := by
  constructor
  · intro db selfId targetId o target h1 h2 h3 h4
    have e1 : (targetId == "") = false := beq_eq_false_iff_ne.mpr h1
    have e2 : (targetId == selfId) = false := beq_eq_false_iff_ne.mpr h2
    cases o <;> simp [followUser, e1, e2, h3, h4]
  · intro db selfId toUserId content pid now o u h1 h2 h3 h4
    have e1 : (toUserId == "") = false := beq_eq_false_iff_ne.mpr h1
    have e2 : (jsTrim content == "") = false := beq_eq_false_iff_ne.mpr h2
    cases o <;> simp [sendMessage, e1, e2, h3, h4]

/-- C2 witness: a concrete follow and a concrete message both succeed even
though the notification step threw. -/
theorem c2_primary_write_independent_of_notification_witness :
    followUser dbC2 "ann" "bob" (.error "boom") =
      ({ dbC2 with follows := dbC2.follows ++ [⟨"ann", "bob"⟩] },
        .ok ("Successfully followed " ++ jsOr (some "Bob") "user")) ∧
    sendMessage dbC2 "ann" "bob" " hi there " (some "pl1") 5 (.error "boom") =
      ({ dbC2 with
          messages := dbC2.messages ++
            [⟨genId dbC2.nextId, jsTrim " hi there ", "ann", "bob", some "pl1", 5⟩],
          nextId := dbC2.nextId + 1 },
        .ok ⟨genId dbC2.nextId, jsTrim " hi there ", "ann", "bob", some "pl1", 5⟩) :=
  ⟨c2_primary_write_independent_of_notification.1 dbC2 "ann" "bob" (.error "boom")
      ⟨"bob", some "Bob", none⟩ (by decide) (by decide) (by decide) (by decide),
    c2_primary_write_independent_of_notification.2 dbC2 "ann" "bob" " hi there "
      (some "pl1") 5 (.error "boom") ⟨"bob", some "Bob", none⟩
      (by decide) (by decide) (by decide) (by decide)⟩

/-- C3 counterexample: the claim says a send to a user with zero registered
tokens surfaces no error condition, but the send-notification endpoint
answers 404 with an error body in exactly that situation. -/
theorem c3_endpoint_errors_on_zero_tokens :
    sendNotification dbC3 "u1" (some "Sender") "u2" "Hello" "World" [] "ts"
      ivAll provEcho = .notFound "No push tokens found for target user" := by
  decide

/-- C3 amended: with zero registered tokens the notification helper returns
early — no provider contact, no exception, and no report either — while the
standalone send-notification endpoint surfaces the 404 error response. -/
theorem c3_zero_tokens_amended :
    (∀ (db : DB) (fid fname : String) (fimg : Option String) (targetId : String)
        (iv : String → Bool) (pv : Provider),
      db.pushTokens.filter (fun t => t.userId == targetId) = [] →
      sendFollowNotification db fid fname fimg targetId iv pv = none) ∧
    (∀ (db : DB) (selfId : String) (selfName : Option String)
        (targetUserId title body : String) (data : List (String × JVal))
        (nowIso : String) (iv : String → Bool) (pv : Provider) (target : UserRec),
      targetUserId ≠ "" → title ≠ "" → body ≠ "" →
      db.users.find? (fun u => u.id == targetUserId) = some target →
      db.pushTokens.filter (fun t => t.userId == targetUserId) = [] →
      sendNotification db selfId selfName targetUserId title body data nowIso iv pv =
        .notFound "No push tokens found for target user") := by
  constructor
  · intro db fid fname fimg targetId iv pv htok
    simp [sendFollowNotification, htok]
  · intro db selfId selfName targetUserId title body data nowIso iv pv target
      h1 h2 h3 hfind htok
    have e1 : (targetUserId == "") = false := beq_eq_false_iff_ne.mpr h1
    have e2 : (title == "") = false := beq_eq_false_iff_ne.mpr h2
    have e3 : (body == "") = false := beq_eq_false_iff_ne.mpr h3
    simp [sendNotification, e1, e2, e3, hfind, htok]

/-- C3 witness: both amended behaviours at a concrete store. -/
theorem c3_zero_tokens_amended_witness :
    sendFollowNotification dbC3 "f1" "Fan" none "u2" ivAll provEcho = none ∧
    sendNotification dbC3 "u1" (some "Sender") "u2" "Hi" "There" [] "ts"
      ivAll provEcho = .notFound "No push tokens found for target user" :=
  ⟨c3_zero_tokens_amended.1 dbC3 "f1" "Fan" none "u2" ivAll provEcho (by decide),
    c3_zero_tokens_amended.2 dbC3 "u1" (some "Sender") "u2" "Hi" "There" [] "ts"
      ivAll provEcho ⟨"u2", some "Target", none⟩
      (by decide) (by decide) (by decide) (by decide) (by decide)⟩

/-- The submission loop on a single chunk: one provider call; its tickets
when it succeeds, nothing when it throws. -/
theorem runChunks_single (pv : Provider) (c : List PushMessage) (i : Nat) :
    runChunks pv [c] i =
      ⟨(match pv i c with | .ok ts => ts | .error _ => []), [c]⟩ := by
  cases hp : pv i c <;> simp [runChunks, hp]

/-- A singleton message list forms a single chunk. -/
theorem chunksOf_singleton (n : Nat) (a : α) : chunksOf n [a] = [[a]] := by
  simp [chunksOf, chunksOfGo]

/-- C4 counterexample: for a batch of one malformed and one well-formed
token the claim requires a returned report with exactly one invalid_token
entry plus one attempted delivery; the returned ticket list has a single
entry and no invalid_token entry at all — the malformed token is only
logged. -/
theorem c4_report_lacks_invalid_token_entry :
    ((sendPushNotification ivC4 provEcho ["bad-token", "ExponentPushToken[good]"]
        nC4).tickets.filter (fun tk => tk.status == "invalid_token")).length = 0 ∧
    (sendPushNotification ivC4 provEcho ["bad-token", "ExponentPushToken[good]"]
        nC4).tickets = [⟨"ok", "ExponentPushToken[good]"⟩] := by
  decide

/-- C4 amended: with one malformed and one well-formed token (either
order), exactly one single-message batch — carrying only the well-formed
token — is submitted, and the returned tickets are exactly what the
provider answered for that batch; the malformed token is dropped with a log
line and leaves no trace in the returned value. -/
theorem c4_malformed_token_dropped :
    ∀ (iv : String → Bool) (pv : Provider) (bad good : String) (n : Notification),
      iv bad = false → iv good = true →
      ((sendPushNotification iv pv [bad, good] n).calls =
          [[⟨good, "default", n.title, n.body, n.data, "default"⟩]] ∧
        (sendPushNotification iv pv [bad, good] n).tickets =
          (match pv 0 [⟨good, "default", n.title, n.body, n.data, "default"⟩] with
           | .ok ts => ts
           | .error _ => [])) ∧
      ((sendPushNotification iv pv [good, bad] n).calls =
          [[⟨good, "default", n.title, n.body, n.data, "default"⟩]] ∧
        (sendPushNotification iv pv [good, bad] n).tickets =
          (match pv 0 [⟨good, "default", n.title, n.body, n.data, "default"⟩] with
           | .ok ts => ts
           | .error _ => [])) := by
  intro iv pv bad good n hb hg
  have hm1 : toPushMessages iv [bad, good] n =
      [⟨good, "default", n.title, n.body, n.data, "default"⟩] := by
    simp [toPushMessages, hb, hg]
  have hm2 : toPushMessages iv [good, bad] n =
      [⟨good, "default", n.title, n.body, n.data, "default"⟩] := by
    simp [toPushMessages, hb, hg]
  constructor
  · unfold sendPushNotification
    rw [hm1, chunksOf_singleton, runChunks_single]
    exact ⟨rfl, rfl⟩
  · unfold sendPushNotification
    rw [hm2, chunksOf_singleton, runChunks_single]
    exact ⟨rfl, rfl⟩

/-- C4 witness: the amended statement at a concrete validator, provider and
token pair. -/
theorem c4_malformed_token_dropped_witness :
    ((sendPushNotification ivC4 provEcho ["bad-token", "ExponentPushToken[good]"]
        nC4).calls =
      [[⟨"ExponentPushToken[good]", "default", nC4.title, nC4.body, nC4.data,
          "default"⟩]] ∧
      (sendPushNotification ivC4 provEcho ["bad-token", "ExponentPushToken[good]"]
        nC4).tickets =
        (match provEcho 0 [⟨"ExponentPushToken[good]", "default", nC4.title,
            nC4.body, nC4.data, "default"⟩] with
         | .ok ts => ts
         | .error _ => [])) ∧
    ((sendPushNotification ivC4 provEcho ["ExponentPushToken[good]", "bad-token"]
        nC4).calls =
      [[⟨"ExponentPushToken[good]", "default", nC4.title, nC4.body, nC4.data,
          "default"⟩]] ∧
      (sendPushNotification ivC4 provEcho ["ExponentPushToken[good]", "bad-token"]
        nC4).tickets =
        (match provEcho 0 [⟨"ExponentPushToken[good]", "default", nC4.title,
            nC4.body, nC4.data, "default"⟩] with
         | .ok ts => ts
         | .error _ => [])) :=
  c4_malformed_token_dropped ivC4 provEcho "bad-token" "ExponentPushToken[good]"
    nC4 (by decide) (by decide)

/-- C5 counterexample: 101 valid tokens form two batches; the provider
throws on the first (100-message) batch and acknowledges the second.  The
claim requires the returned report to record provider_error for each of the
100 tokens of the failed batch; the returned ticket list contains no
provider_error entry at all — only the single acknowledgment of the second
batch. -/
theorem c5_no_provider_error_entries :
    ((sendPushNotification ivAll provC5 tokensC5 nC5).tickets.filter
        (fun tk => tk.status == "provider_error")).length = 0 ∧
    (sendPushNotification ivAll provC5 tokensC5 nC5).tickets = [⟨"ok", "second"⟩] ∧
    (sendPushNotification ivAll provC5 tokensC5 nC5).calls.length = 2 ∧
    ((sendPushNotification ivAll provC5 tokensC5 nC5).calls.headD []).length = 100 := by
  decide

/-- C5 amended: every formed batch is submitted, in formation order, even
after an earlier batch throws; a throwing batch contributes nothing to the
returned ticket list (the failure is only logged), while later successful
batches still contribute their tickets. -/
theorem c5_failed_batch_only_logged :
    (∀ (pv : Provider) (cs : List (List PushMessage)) (i : Nat),
      (runChunks pv cs i).calls = cs) ∧
    (∀ (pv : Provider) (b1 b2 : List PushMessage) (e : String) (ts : List Ticket),
      pv 0 b1 = .error e → pv 1 b2 = .ok ts →
      runChunks pv [b1, b2] 0 = ⟨ts, [b1, b2]⟩) := by
  constructor
  · intro pv cs
    induction cs with
    | nil => intro i; rfl
    | cons c cs ih =>
      intro i
      cases hp : pv i c <;> simp [runChunks, hp, ih]
  · intro pv b1 b2 e ts h1 h2
    simp [runChunks, h1, h2]

/-- C5 witness: the amended statement at two concrete batches with a
concrete throwing-then-succeeding provider. -/
theorem c5_failed_batch_only_logged_witness :
    (runChunks provC5 [batchA, batchB] 0).calls = [batchA, batchB] ∧
    runChunks provC5 [batchA, batchB] 0 = ⟨[⟨"ok", "second"⟩], [batchA, batchB]⟩ :=
  ⟨c5_failed_batch_only_logged.1 provC5 [batchA, batchB] 0,
    c5_failed_batch_only_logged.2 provC5 batchA batchB "network error"
      [⟨"ok", "second"⟩] (by decide) (by decide)⟩

/-- C8 counterexample: the claim says that whenever the acting user differs
from the playlist owner a payload is produced; with an owner who has no
registered tokens both composers return early and no payload is built even
though the ids differ. -/
theorem c8_no_payload_without_tokens :
    (sendPlaylistLikeNotification emptyDB "liker" "Liz" none "owner" "p1" "Mix"
      "ts" ivAll provEcho).payload = none ∧
    (sendPlaylistCommentNotification emptyDB "com" "Cal" none "owner" "p1" "Mix"
      "nice" "ts" ivAll provEcho).payload = none ∧
    ("liker" : String) ≠ "owner" ∧ ("com" : String) ≠ "owner" := by
  decide

/-- C8 amended: when the acting user is the playlist owner, the like and
comment helpers produce no payload and never reach the provider; when the
ids differ and the owner has at least one registered token, a payload is
composed and a fan-out is performed. -/
theorem c8_self_action_suppressed :
    ∀ (db : DB) (aid aname : String) (aimg : Option String)
      (ownerId pid pname cmt nowIso : String) (iv : String → Bool) (pv : Provider),
      (aid = ownerId →
        sendPlaylistLikeNotification db aid aname aimg ownerId pid pname nowIso
          iv pv = ⟨none, none⟩ ∧
        sendPlaylistCommentNotification db aid aname aimg ownerId pid pname cmt
          nowIso iv pv = ⟨none, none⟩) ∧
      (aid ≠ ownerId →
        db.pushTokens.filter (fun t => t.userId == ownerId) ≠ [] →
        (sendPlaylistLikeNotification db aid aname aimg ownerId pid pname nowIso
          iv pv).payload.isSome ∧
        (sendPlaylistLikeNotification db aid aname aimg ownerId pid pname nowIso
          iv pv).sent.isSome ∧
        (sendPlaylistCommentNotification db aid aname aimg ownerId pid pname cmt
          nowIso iv pv).payload.isSome ∧
        (sendPlaylistCommentNotification db aid aname aimg ownerId pid pname cmt
          nowIso iv pv).sent.isSome) := by
  intro db aid aname aimg ownerId pid pname cmt nowIso iv pv
  constructor
  · intro h
    subst h
    constructor <;> simp [sendPlaylistLikeNotification, sendPlaylistCommentNotification]
  · intro hne htok
    have e : (aid == ownerId) = false := beq_eq_false_iff_ne.mpr hne
    have hlen : ((db.pushTokens.filter fun t => t.userId == ownerId).length = 0) =
        False := by
      simp [List.length_eq_zero, htok]
    refine ⟨?_, ?_, ?_, ?_⟩ <;>
      simp [sendPlaylistLikeNotification, sendPlaylistCommentNotification, e,
        List.length_eq_zero, htok]

/-- C8 witness: suppression for a self-like, and composed payloads for a
non-owner action against an owner with one registered device. -/
theorem c8_self_action_suppressed_witness :
    (sendPlaylistLikeNotification dbC8tok "owner" "Own" none "owner" "p1" "Mix"
      "ts" ivAll provEcho = ⟨none, none⟩ ∧
     sendPlaylistCommentNotification dbC8tok "owner" "Own" none "owner" "p1" "Mix"
      "hey" "ts" ivAll provEcho = ⟨none, none⟩) ∧
    ((sendPlaylistLikeNotification dbC8tok "fan" "Fay" none "owner" "p1" "Mix"
      "ts" ivAll provEcho).payload.isSome ∧
     (sendPlaylistLikeNotification dbC8tok "fan" "Fay" none "owner" "p1" "Mix"
      "ts" ivAll provEcho).sent.isSome ∧
     (sendPlaylistCommentNotification dbC8tok "fan" "Fay" none "owner" "p1" "Mix"
      "hey" "ts" ivAll provEcho).payload.isSome ∧
     (sendPlaylistCommentNotification dbC8tok "fan" "Fay" none "owner" "p1" "Mix"
      "hey" "ts" ivAll provEcho).sent.isSome) :=
  ⟨(c8_self_action_suppressed dbC8tok "owner" "Own" none "owner" "p1" "Mix" "hey"
      "ts" ivAll provEcho).1 rfl,
    (c8_self_action_suppressed dbC8tok "fan" "Fay" none "owner" "p1" "Mix" "hey"
      "ts" ivAll provEcho).2 (by decide) (by decide)⟩

/-- C9 counterexample: two register calls whose resulting rows have
different ids produce byte-identical responses, so the response cannot
communicate the resulting record id — the handler returns only a fixed
acknowledgment. -/
theorem c9_response_carries_no_id :
    (registerPushToken dbC9a "u" "tk" "ios" 5).response =
      (registerPushToken dbC9b "u" "tk" "ios" 5).response ∧
    (registerPushToken dbC9a "u" "tk" "ios" 5).recordId ≠
      (registerPushToken dbC9b "u" "tk" "ios" 5).recordId := by
  decide

/-- C9 amended: a valid register call answers with the fixed success
acknowledgment; the id of the row it updated (existing pair) or inserted
(fresh pair) is logged internally but not returned to the caller. -/
theorem c9_register_ack_and_record_id :
    ∀ (db : DB) (userId token platform : String) (now : Nat),
      token ≠ "" → (platform = "ios" ∨ platform = "android") →
      (registerPushToken db userId token platform now).response =
        .ok "Push token registered successfully" ∧
      (registerPushToken db userId token platform now).recordId =
        some (match lookupPair db userId token with
              | some r => r.id
              | none => db.nextId) := by
  intro db userId token platform now h1 h2
  have e1 : (token == "") = false := beq_eq_false_iff_ne.mpr h1
  unfold registerPushToken lookupPair
  rcases h2 with rfl | rfl <;>
    cases hfind : db.pushTokens.find? (fun r => r.userId == userId && r.token == token) <;>
      simp [hfind, e1]

/-- C9 witness: the amended statement at a concrete store and input. -/
theorem c9_register_ack_and_record_id_witness :
    (registerPushToken dbC9a "u" "tk" "ios" 5).response =
      .ok "Push token registered successfully" ∧
    (registerPushToken dbC9a "u" "tk" "ios" 5).recordId =
      some (match lookupPair dbC9a "u" "tk" with
            | some r => r.id
            | none => dbC9a.nextId) :=
  c9_register_ack_and_record_id dbC9a "u" "tk" "ios" 5 (by decide) (Or.inl rfl)

/-- C10 witness: the dispatch result for the literal request `GET /shared`
does not carry the shared-playlists handler. -/
theorem c10_shared_route_shadowed_witness :
    (dispatch playlistRouter "GET" ["shared"]).map Prod.fst ≠
      some PlaylistHandler.getSharedPlaylists :=
  c10_shared_route_shadowed.2 "GET" ["shared"]

/-- Splitting a valid registration request into its two passing checks. -/
theorem validOp_parts (op : RegOp) (hv : validOp op = true) :
    (op.token == "" || op.platform == "") = false ∧
    (op.platform == "ios" || op.platform == "android") = true := by
  unfold validOp at hv
  rw [Bool.and_eq_true] at hv
  obtain ⟨hx, hy⟩ := hv
  rw [Bool.not_eq_true'] at hx
  exact ⟨hx, hy⟩

/-- An invalid registration request leaves the store untouched. -/
theorem applyReg_invalid (db : DB) (op : RegOp) (h : validOp op = false) :
    applyReg db op = db := by
  unfold applyReg registerPushToken
  cases hb : (op.token == "" || op.platform == "") with
  | true => simp [hb]
  | false =>
    cases hc : (op.platform == "ios" || op.platform == "android") with
    | true => exact absurd h (by simp [validOp, hb, hc])
    | false => simp [hb, hc]

/-- The in-place platform update touches neither `userId` nor `token`, so
the pair predicate commutes with it inside `find?`. -/
theorem find?_pair_map_update (recs : List PushTokenRec) (ex : PushTokenRec)
    (p : String) (now : Nat) (u t : String) :
    List.find? (fun r => r.userId == u && r.token == t)
      (recs.map fun r =>
        if r.id == ex.id then { r with platform := p, updatedAt := now } else r) =
    Option.map
      (fun r =>
        if r.id == ex.id then { r with platform := p, updatedAt := now } else r)
      (List.find? (fun r => r.userId == u && r.token == t) recs) := by
  have hpred : ((fun r : PushTokenRec => r.userId == u && r.token == t) ∘
      fun r : PushTokenRec =>
      if r.id == ex.id then { r with platform := p, updatedAt := now } else r) =
      (fun r : PushTokenRec => r.userId == u && r.token == t) := by
    funext r
    by_cases hid : (r.id == ex.id) = true <;> simp [Function.comp, hid]
  rw [List.find?_map, hpred]

/-- A valid registration makes the stored platform of its own pair the
registered platform. -/
theorem lookupPair_applyReg_same (db : DB) (op : RegOp) (hv : validOp op = true) :
    (lookupPair (applyReg db op) op.userId op.token).map (·.platform) =
      some op.platform := by
  obtain ⟨hx, hy⟩ := validOp_parts op hv
  unfold applyReg registerPushToken
  rw [if_neg (by simp [hx]), if_neg (by simp [hy])]
  cases hfind : db.pushTokens.find?
      (fun r => r.userId == op.userId && r.token == op.token) with
  | some existing =>
    simp only
    unfold lookupPair
    simp only
    rw [find?_pair_map_update, hfind, Option.map_some', Option.map_some']
    have : (existing.id == existing.id) = true := by simp
    simp [this]
  | none =>
    simp only
    unfold lookupPair
    simp only
    rw [List.find?_append, hfind, Option.none_or]
    simp [List.find?]

/-- A registration leaves the stored row of every other pair unchanged
(given pairwise distinct primary keys). -/
theorem lookupPair_applyReg_other (db : DB) (op : RegOp)
    (hids : db.pushTokens.Pairwise (fun a b => a.id ≠ b.id)) (u t : String)
    (hne : ¬(u = op.userId ∧ t = op.token)) :
    lookupPair (applyReg db op) u t = lookupPair db u t := by
  by_cases hv : validOp op = true
  · obtain ⟨hx, hy⟩ := validOp_parts op hv
    unfold applyReg registerPushToken
    rw [if_neg (by simp [hx]), if_neg (by simp [hy])]
    cases hfind : db.pushTokens.find?
        (fun r => r.userId == op.userId && r.token == op.token) with
    | some existing =>
      simp only
      unfold lookupPair
      simp only
      rw [find?_pair_map_update]
      cases hres : List.find? (fun r => r.userId == u && r.token == t)
          db.pushTokens with
      | none => simp
      | some r0 =>
        rw [Option.map_some']
        have hr0mem := List.mem_of_find?_eq_some hres
        have hexmem := List.mem_of_find?_eq_some hfind
        have hr0p := List.find?_some hres
        have hexp := List.find?_some hfind
        rw [Bool.and_eq_true, beq_iff_eq, beq_iff_eq] at hr0p hexp
        have hdiff : r0 ≠ existing := by
          intro hEq
          rw [← hEq] at hexp
          exact hne ⟨hr0p.1 ▸ hexp.1, hr0p.2 ▸ hexp.2⟩
        have hidne : r0.id ≠ existing.id := by
          have hsym : Symmetric (fun (a b : PushTokenRec) => a.id ≠ b.id) :=
            fun _ _ h => Ne.symm h
          exact List.Pairwise.forall hsym hids hr0mem hexmem hdiff
        have hfalse : (r0.id == existing.id) = false := beq_eq_false_iff_ne.mpr hidne
        simp [hfalse]
    | none =>
      simp only
      unfold lookupPair
      simp only
      rw [List.find?_append]
      have hnew : ((op.userId == u) && (op.token == t)) = false := by
        rw [Bool.eq_false_iff]
        intro hcon
        rw [Bool.and_eq_true, beq_iff_eq, beq_iff_eq] at hcon
        exact hne ⟨hcon.1.symm, hcon.2.symm⟩
      simp [List.find?, hnew]
  · have hvf : validOp op = false := by revert hv; cases validOp op <;> simp
    rw [applyReg_invalid db op hvf]

/-- A registration preserves store well-formedness. -/
theorem storeInv_applyReg (db : DB) (op : RegOp) (h : StoreInv db) :
    StoreInv (applyReg db op) := by
  by_cases hv : validOp op = true
  · obtain ⟨hx, hy⟩ := validOp_parts op hv
    obtain ⟨hlt, hid, hpair⟩ := h
    unfold applyReg registerPushToken
    rw [if_neg (by simp [hx]), if_neg (by simp [hy])]
    cases hfind : db.pushTokens.find?
        (fun r => r.userId == op.userId && r.token == op.token) with
    | some existing =>
      simp only
      refine ⟨?_, ?_, ?_⟩
      · intro r hr
        rw [List.mem_map] at hr
        obtain ⟨r0, hr0, rfl⟩ := hr
        by_cases hi : (r0.id == existing.id) = true <;> simp [hi] <;> exact hlt r0 hr0
      · rw [List.pairwise_map]
        refine hid.imp ?_
        intro a b hab
        by_cases ha : (a.id == existing.id) = true <;>
          by_cases hb2 : (b.id == existing.id) = true <;> simp [ha, hb2] <;> exact hab
      · unfold pairUnique
        simp only
        rw [List.pairwise_map]
        refine hpair.imp ?_
        intro a b hab
        by_cases ha : (a.id == existing.id) = true <;>
          by_cases hb2 : (b.id == existing.id) = true <;> simp [ha, hb2] <;>
            exact fun h1 h2 => hab ⟨h1, h2⟩
    | none =>
      simp only
      refine ⟨?_, ?_, ?_⟩
      · intro r hr
        rw [List.mem_append] at hr
        rcases hr with hr | hr
        · exact Nat.lt_succ_of_lt (hlt r hr)
        · simp at hr
          rw [hr]
          exact Nat.lt_succ_self _
      · rw [List.pairwise_append]
        refine ⟨hid, List.pairwise_singleton _ _, ?_⟩
        intro a ha b hb
        simp at hb
        rw [hb]
        exact Nat.ne_of_lt (hlt a ha)
      · unfold pairUnique
        simp only
        rw [List.pairwise_append]
        refine ⟨hpair, List.pairwise_singleton _ _, ?_⟩
        intro a ha b hb
        simp at hb
        rw [hb]
        rw [List.find?_eq_none] at hfind
        have hnp := hfind a ha
        intro hcon
        apply hnp
        rw [Bool.and_eq_true, beq_iff_eq, beq_iff_eq]
        exact hcon
  · have hvf : validOp op = false := by revert hv; cases validOp op <;> simp
    rw [applyReg_invalid db op hvf]
    exact h

/-- Mapping a function into an `Option.or`. -/
theorem optOr_map {α β : Type} (f : α → β) (a b : Option α) :
    (a.or b).map f = (a.map f).or (b.map f) := by
  cases a <;> rfl

/-- `getLast?` of a cons, written with `Option.or`. -/
theorem getLast?_cons_or {α : Type} (a : α) (l : List α) :
    (a :: l).getLast? = l.getLast?.or (some a) := by
  cases h : l.getLast? <;> simp [List.getLast?_cons, h]

/-- Peeling the first request off `lastPlatform`. -/
theorem lastPlatform_cons (op : RegOp) (ops : List RegOp) (u t : String) :
    lastPlatform (op :: ops) u t =
      (lastPlatform ops u t).or
        (if (validOp op && op.userId == u && op.token == t) = true
         then some op.platform else none) := by
  unfold lastPlatform
  rw [List.filter_cons]
  by_cases hp : (validOp op && op.userId == u && op.token == t) = true
  · rw [if_pos hp, if_pos hp, getLast?_cons_or, optOr_map]
    rfl
  · rw [if_neg hp, if_neg hp, Option.or_none]

/-- Running a request sequence preserves well-formedness, and the stored
platform of every pair is the platform of its most recent valid
registration, defaulting to whatever the initial store held. -/
theorem applyRegs_lookup (ops : List RegOp) : ∀ db : DB, StoreInv db →
    StoreInv (applyRegs db ops) ∧
    ∀ u t, (lookupPair (applyRegs db ops) u t).map (·.platform) =
      (lastPlatform ops u t).or ((lookupPair db u t).map (·.platform)) := by
  induction ops with
  | nil =>
    intro db h
    refine ⟨h, fun u t => ?_⟩
    have hlp : lastPlatform [] u t = none := rfl
    rw [show applyRegs db [] = db from rfl, hlp, Option.none_or]
  | cons op ops ih =>
    intro db h
    have h' := storeInv_applyReg db op h
    obtain ⟨hInv, hLook⟩ := ih (applyReg db op) h'
    refine ⟨hInv, ?_⟩
    intro u t
    have hstep : (lookupPair (applyReg db op) u t).map (·.platform) =
        (if (validOp op && op.userId == u && op.token == t) = true
         then some op.platform else none).or
          ((lookupPair db u t).map (·.platform)) := by
      by_cases hp : (validOp op && op.userId == u && op.token == t) = true
      · rw [if_pos hp]
        rw [Bool.and_eq_true, Bool.and_eq_true] at hp
        obtain ⟨⟨hv, hu⟩, ht⟩ := hp
        rw [beq_iff_eq] at hu ht
        rw [← hu, ← ht] at *
        rw [lookupPair_applyReg_same db op hv]
        rfl
      · rw [if_neg hp, Option.none_or]
        by_cases hv : validOp op = true
        · have hne : ¬(u = op.userId ∧ t = op.token) := by
            intro hcon
            apply hp
            rw [Bool.and_eq_true, Bool.and_eq_true, beq_iff_eq, beq_iff_eq]
            exact ⟨⟨hv, hcon.1.symm⟩, hcon.2.symm⟩
          rw [lookupPair_applyReg_other db op h.2.1 u t hne]
        · have hvf : validOp op = false := by revert hv; cases validOp op <;> simp
          rw [applyReg_invalid db op hvf]
    rw [show applyRegs db (op :: ops) = applyRegs (applyReg db op) ops from rfl]
    rw [hLook u t, hstep, lastPlatform_cons, Option.or_assoc]

/-- C6: starting from the empty store, after any sequence of registration
requests no two stored rows share a `(userId, token)` pair, and the stored
platform of a pair is the platform of its most recent valid registration —
re-registering updates in place instead of duplicating. -/
theorem c6_register_idempotent_upsert :
    ∀ (ops : List RegOp) (u t p : String),
      pairUnique (applyRegs emptyDB ops) ∧
      (lastPlatform ops u t = some p →
        (lookupPair (applyRegs emptyDB ops) u t).map (·.platform) = some p) := by
  intro ops u t p
  have hinv : StoreInv emptyDB :=
    ⟨fun r hr => absurd hr (List.not_mem_nil r), List.Pairwise.nil, List.Pairwise.nil⟩
  obtain ⟨hInv, hLook⟩ := applyRegs_lookup ops emptyDB hinv
  refine ⟨hInv.2.2, ?_⟩
  intro hlp
  rw [hLook u t, hlp]
  rfl

/-- C6 witness: registering the same pair twice leaves a single row whose
platform is the one of the second registration. -/
theorem c6_register_idempotent_upsert_witness :
    pairUnique (applyRegs emptyDB opsC6) ∧
    (lookupPair (applyRegs emptyDB opsC6) "u" "tk").map (·.platform) =
      some "android" :=
  ⟨(c6_register_idempotent_upsert opsC6 "u" "tk" "android").1,
    (c6_register_idempotent_upsert opsC6 "u" "tk" "android").2 (by decide)⟩

/-- Inverting one serialised shared-playlist entry: every field comes from
the qualifying message, its sender row and its playlist row. -/
theorem renderEntry_eq_some (db : DB) (m : MessageRec) (e : SharedEntry)
    (h : renderEntry db m = some e) :
    db.users.find? (fun u => u.id == m.fromId) =
      some ⟨e.senderId, e.senderName, e.senderImage⟩ ∧
    e.messageId = m.id ∧ e.messageContent = m.content ∧ e.sharedAt = m.createdAt ∧
    e.playlist = (m.playlistId.bind fun pid =>
        db.playlists.find? fun p => p.id == pid).map (fun p =>
      (⟨p.id, p.name, playlistSongsOf db p.id⟩ : PlaylistView)) := by
  unfold renderEntry at h
  cases hf : db.users.find? (fun u => u.id == m.fromId) with
  | none =>
    rw [hf] at h
    exact Option.noConfusion h
  | some sender =>
    rw [hf, Option.map_some'] at h
    injection h with h
    subst h
    exact ⟨rfl, rfl, rfl, rfl, rfl⟩

/-- Under sender foreign-key integrity, serialising a message list yields
one entry per message, carrying that message id. -/
theorem filterMap_render_map_id (db : DB) :
    ∀ l : List MessageRec,
      (∀ m ∈ l, (db.users.find? fun u => u.id == m.fromId).isSome) →
      (l.filterMap (renderEntry db)).map (·.messageId) = l.map (·.id) := by
  intro l
  induction l with
  | nil => intro _; rfl
  | cons m l ih =>
    intro h
    have hm := h m (List.mem_cons_self m l)
    rw [List.filterMap_cons]
    cases hr : renderEntry db m with
    | none =>
      exfalso
      unfold renderEntry at hr
      cases hf : db.users.find? (fun u => u.id == m.fromId) with
      | none =>
        rw [hf] at hm
        simp at hm
      | some sender =>
        rw [hf, Option.map_some'] at hr
        exact Option.noConfusion hr
    | some e =>
      simp only
      rw [List.map_cons, List.map_cons]
      rw [(renderEntry_eq_some db m e hr).2.1]
      rw [ih (fun m' hm' => h m' (List.mem_cons_of_mem m hm'))]

/-- C7: listing the playlists shared with a user returns exactly one entry
per message addressed to the user with a non-null playlist reference —
entries for the same playlist are not merged — ordered newest message
first, each entry carrying the sender identity, message content, timestamp
and the referenced playlist with its song list.  (The sender rows are
required to exist, which the `fromId` foreign key guarantees.) -/
theorem c7_shared_listing (db : DB) (uid : String)
    (h : ∀ m ∈ db.messages, (db.users.find? fun u => u.id == m.fromId).isSome) :
    List.Perm ((getSharedPlaylists db uid).map (·.messageId))
      ((qualifyingMessages db uid).map (·.id)) ∧
    (getSharedPlaylists db uid).Pairwise (fun a b => b.sharedAt ≤ a.sharedAt) ∧
    ∀ e ∈ getSharedPlaylists db uid, ∃ m ∈ db.messages,
      m.toId = uid ∧ m.playlistId ≠ none ∧ e.messageId = m.id ∧
      e.messageContent = m.content ∧ e.sharedAt = m.createdAt ∧
      db.users.find? (fun u => u.id == m.fromId) =
        some ⟨e.senderId, e.senderName, e.senderImage⟩ ∧
      e.playlist = (m.playlistId.bind fun pid =>
          db.playlists.find? fun p => p.id == pid).map (fun p =>
        (⟨p.id, p.name, playlistSongsOf db p.id⟩ : PlaylistView)) := by
  have hq : ∀ m ∈ qualifyingMessages db uid, m ∈ db.messages := by
    intro m hm
    exact (List.mem_filter.mp hm).1
  have hsortmem : ∀ m ∈ List.insertionSort newestFirst (qualifyingMessages db uid),
      m ∈ qualifyingMessages db uid := by
    intro m hm
    exact ((List.perm_insertionSort newestFirst
      (qualifyingMessages db uid)).mem_iff).mp hm
  refine ⟨?_, ?_, ?_⟩
  · unfold getSharedPlaylists
    rw [filterMap_render_map_id db _ (fun m hm => h m (hq m (hsortmem m hm)))]
    exact List.Perm.map _ (List.perm_insertionSort newestFirst _)
  · unfold getSharedPlaylists
    have hs : List.Pairwise newestFirst
        (List.insertionSort newestFirst (qualifyingMessages db uid)) :=
      List.sorted_insertionSort newestFirst _
    refine List.Pairwise.filterMap (renderEntry db) ?_ hs
    intro a a' hrel b hb b' hb'
    rw [Option.mem_def] at hb hb'
    have hfa := (renderEntry_eq_some db a b hb).2.2.2.1
    have hfa' := (renderEntry_eq_some db a' b' hb').2.2.2.1
    rw [hfa, hfa']
    exact hrel
  · intro e he
    unfold getSharedPlaylists at he
    rw [List.mem_filterMap] at he
    obtain ⟨m, hm, hr⟩ := he
    have hmq := hsortmem m hm
    have hmem := hq m hmq
    have hcond := (List.mem_filter.mp hmq).2
    rw [Bool.and_eq_true] at hcond
    obtain ⟨h1, h2⟩ := hcond
    rw [beq_iff_eq] at h1
    rw [bne_iff_ne] at h2
    have hfields := renderEntry_eq_some db m e hr
    exact ⟨m, hmem, h1, h2, hfields.2.1, hfields.2.2.1, hfields.2.2.2.1,
      hfields.1, hfields.2.2.2.2⟩

/-- C7 witness: a recipient who received the same playlist in two distinct
messages gets two entries, newest first, with all fields resolved. -/
theorem c7_shared_listing_witness :
    List.Perm ((getSharedPlaylists dbC7 "r").map (·.messageId))
      ((qualifyingMessages dbC7 "r").map (·.id)) ∧
    (getSharedPlaylists dbC7 "r").Pairwise (fun a b => b.sharedAt ≤ a.sharedAt) ∧
    ∀ e ∈ getSharedPlaylists dbC7 "r", ∃ m ∈ dbC7.messages,
      m.toId = "r" ∧ m.playlistId ≠ none ∧ e.messageId = m.id ∧
      e.messageContent = m.content ∧ e.sharedAt = m.createdAt ∧
      dbC7.users.find? (fun u => u.id == m.fromId) =
        some ⟨e.senderId, e.senderName, e.senderImage⟩ ∧
      e.playlist = (m.playlistId.bind fun pid =>
          dbC7.playlists.find? fun p => p.id == pid).map (fun p =>
        (⟨p.id, p.name, playlistSongsOf dbC7 p.id⟩ : PlaylistView)) :=
  c7_shared_listing dbC7 "r" (by decide)

end Beatinbox
